import Mathlib

namespace ImageService

/-! Shallow embedding of the aws-image-service request handlers:
src/upload_handler.py, get_handler.py and list_handler.py.  Bytes are
modelled as natural numbers below 256 in lists, text as Lean strings or
character lists.  External collaborators (S3, DynamoDB, uuid, clock, and
the Python cgi library) enter the handlers as explicit parameters. -/

/-- Abstract JSON values, modelling the dictionaries handed to json.dumps
in the handlers.  Serialization itself is envelope formatting, outside the
modelled core. -/
inductive Js where
  | str (s : String)
  | num (n : Int)
  | null
  | arr (xs : List Js)
  | obj (fields : List (String × Js))

/-- An HTTP response as produced by the lambda handlers: status code,
response headers, and the JSON body. -/
structure Response where
  statusCode : Nat
  headers : List (String × String)
  body : Js

/-- The response headers attached at every return site of all three
handler source files. -/
def jsonHeaders : List (String × String) :=
  [("Content-Type", "application/json"), ("Access-Control-Allow-Origin", "*")]

/-- A 400 response with an error message, as built at each 400 return
site. -/
def err400 (msg : String) : Response :=
  ⟨400, jsonHeaders, .obj [("error", .str msg)]⟩

/-- The catch-all 500 response (upload_handler.py lines 258-270 and the
analogous blocks of the other two handlers).  The message field echoes
str(e) in the source; the model keeps only which raising step was taken,
not the exception text. -/
def err500 (msg : String) : Response :=
  ⟨500, jsonHeaders, .obj [("error", .str "Internal server error"), ("message", .str msg)]⟩

/-- Whitespace bytes stripped by bytes.strip() with no argument. -/
def isWsB (b : Nat) : Bool := b = 9 || b = 10 || b = 11 || b = 12 || b = 13 || b = 32

/-- ASCII whitespace characters: the regex class backslash-s and the
characters str.strip() removes (restricted to ASCII, which is all the
modelled inputs contain). -/
def isWsC (c : Char) : Bool :=
  c = ' ' || c = '\t' || c = '\n' || c = '\r' || c = '\x0b' || c = '\x0c'

/-- bytes.strip(): drop ASCII whitespace at both ends. -/
def bstrip (l : List Nat) : List Nat :=
  ((l.dropWhile isWsB).reverse.dropWhile isWsB).reverse

/-- str.strip() on ASCII text. -/
def pstrip (l : List Char) : List Char :=
  ((l.dropWhile isWsC).reverse.dropWhile isWsC).reverse

/-- str.strip with a double-quote argument, as applied to the boundary
capture at upload_handler.py line 69: drop quote characters at both
ends. -/
def stripQuotes (l : List Char) : List Char :=
  ((l.dropWhile (fun c => c = '"')).reverse.dropWhile (fun c => c = '"')).reverse

/-- Contiguous-subsequence test: the Python in operator on str and bytes
(upload_handler.py lines 25, 120, 122, 131). -/
def hasSub [BEq α] (p : List α) : List α → Bool
  | [] => p.isEmpty
  | c :: cs => p.isPrefixOf (c :: cs) || hasSub p cs

/-- Anchored literal match: the remainder of s after the literal p when p
heads s.  Used to model regex matching position by position. -/
def dropPref [DecidableEq α] : List α → List α → Option (List α)
  | [], s => some s
  | _ :: _, [] => none
  | p :: ps, c :: cs => if c = p then dropPref ps cs else none

/-- Split at the first occurrence of sep, as part.split(separator, 1) at
upload_handler.py line 127 when the separator occurs. -/
def splitFirst [DecidableEq α] (sep : List α) : List α → Option (List α × List α)
  | [] => none
  | c :: cs =>
    match dropPref sep (c :: cs) with
    | some rest => some ([], rest)
    | none =>
      match splitFirst sep cs with
      | some (h, b) => some (c :: h, b)
      | none => none

/-- Worker for bytes.split: scans left to right, cutting at every
non-overlapping occurrence of the delimiter.  The fuel argument is
initialised to the length of the scanned list (each step consumes at
least one element, so it never runs out); it only makes the recursion
structural so the definition evaluates inside the kernel. -/
def splitOnF (d : Nat) (ds : List Nat) : Nat → List Nat → List Nat → List (List Nat)
  | _, acc, [] => [acc.reverse]
  | 0, acc, s => [acc.reverse ++ s]
  | fuel + 1, acc, x :: xs =>
    if (d :: ds).isPrefixOf (x :: xs) then
      acc.reverse :: splitOnF d ds fuel [] (xs.drop ds.length)
    else
      splitOnF d ds fuel (x :: acc) xs

/-- bytes.split(delim) (upload_handler.py line 105) for a non-empty
delimiter; the delimiter in the source is two hyphens plus the boundary,
hence never empty. -/
def splitOn (delim : List Nat) (s : List Nat) : List (List Nat) :=
  match delim with
  | [] => [s]
  | d :: ds => splitOnF d ds s.length [] s

/-- A UTF-8 continuation byte. -/
def utf8Cont (b : Nat) : Bool := 128 ≤ b && b ≤ 191

/-- Allowed second byte given the leading byte of a multi-byte UTF-8
sequence (excluding overlong encodings and surrogates, as the CPython
decoder does). -/
def utf8Snd (b b2 : Nat) : Bool :=
  if b = 224 then 160 ≤ b2 && b2 ≤ 191
  else if b = 237 then 128 ≤ b2 && b2 ≤ 159
  else if b = 240 then 144 ≤ b2 && b2 ≤ 191
  else if b = 244 then 128 ≤ b2 && b2 ≤ 143
  else utf8Cont b2

/-- Worker for the ignoring UTF-8 decoder.  The fuel argument is
initialised to the length of the byte list (every step consumes at least
one byte, so it never runs out); it only makes the recursion structural
so the definition evaluates inside the kernel. -/
def utf8DIF : Nat → List Nat → List Char
  | _, [] => []
  | 0, _ => []
  | fuel + 1, b :: bs =>
    if b ≤ 127 then Char.ofNat b :: utf8DIF fuel bs
    else if 194 ≤ b && b ≤ 223 then
      match bs with
      | [] => []
      | b2 :: bs2 =>
        if utf8Cont b2 then Char.ofNat ((b - 192) * 64 + (b2 - 128)) :: utf8DIF fuel bs2
        else utf8DIF fuel bs
    else if 224 ≤ b && b ≤ 239 then
      match bs with
      | [] => []
      | [b2] => if utf8Snd b b2 then [] else utf8DIF fuel bs
      | b2 :: b3 :: bs3 =>
        if utf8Snd b b2 then
          if utf8Cont b3 then
            Char.ofNat ((b - 224) * 4096 + (b2 - 128) * 64 + (b3 - 128)) :: utf8DIF fuel bs3
          else utf8DIF fuel bs
        else utf8DIF fuel bs
    else if 240 ≤ b && b ≤ 244 then
      match bs with
      | [] => []
      | [b2] => if utf8Snd b b2 then [] else utf8DIF fuel bs
      | [b2, b3] => if utf8Snd b b2 && utf8Cont b3 then [] else utf8DIF fuel bs
      | b2 :: b3 :: b4 :: bs4 =>
        if utf8Snd b b2 && utf8Cont b3 then
          if utf8Cont b4 then
            Char.ofNat ((b - 240) * 262144 + (b2 - 128) * 4096 + (b3 - 128) * 64 + (b4 - 128))
              :: utf8DIF fuel bs4
          else utf8DIF fuel bs
        else utf8DIF fuel bs
    else utf8DIF fuel bs

/-- bytes.decode with utf-8 and errors ignore (upload_handler.py line
128): decode UTF-8 and drop bytes on which decoding fails.  On an
ill-formed sequence the model skips one byte (and drops a truncated
sequence at the end of input); CPython may group several bytes into one
ignored error range, a difference not observable through the theorems
below, which use this function on ASCII header text or uniformly on both
sides of an equivalence. -/
def utf8DI (l : List Nat) : List Char := utf8DIF l.length l

/-- Characters of the regex class excluding semicolon and whitespace,
used by the boundary pattern and the bare filename pattern. -/
def tokChar (c : Char) : Bool := !(c = ';' || isWsC c)

/-- The literal head of the boundary pattern. -/
def bndPat : List Char := ['b', 'o', 'u', 'n', 'd', 'a', 'r', 'y', '=']

/-- One anchored attempt of the boundary regex (the literal, then a
non-empty capture of token characters). -/
def bndTry (s : List Char) : Option (List Char) :=
  match dropPref bndPat s with
  | none => none
  | some rest =>
    match rest.takeWhile tokChar with
    | [] => none
    | c :: cs => some (c :: cs)

/-- re.search for the boundary pattern of upload_handler.py line 56: try
an anchored match at every position, left to right. -/
def bndSearch : List Char → Option (List Char)
  | [] => none
  | c :: cs =>
    match bndTry (c :: cs) with
    | some cap => some cap
    | none => bndSearch cs

/-- The literal head of the quoted filename pattern. -/
def fnQuotPat : List Char := ['f', 'i', 'l', 'e', 'n', 'a', 'm', 'e', '=', '"']

/-- re.search for the quoted filename pattern of line 135: the literal, a
possibly-empty capture of non-quote characters, and a closing quote. -/
def fnQuotSearch : List Char → Option (List Char)
  | [] => none
  | c :: cs =>
    match dropPref fnQuotPat (c :: cs) with
    | some rest =>
      let cap := rest.takeWhile (fun x => !(x = '"'))
      if cap.length < rest.length then some cap else fnQuotSearch cs
    | none => fnQuotSearch cs

/-- The literal head of the bare filename pattern. -/
def fnBarePat : List Char := ['f', 'i', 'l', 'e', 'n', 'a', 'm', 'e', '=']

/-- re.search for the bare filename pattern of line 137: the literal,
then a non-empty capture of non-whitespace non-semicolon characters. -/
def fnBareSearch : List Char → Option (List Char)
  | [] => none
  | c :: cs =>
    match dropPref fnBarePat (c :: cs) with
    | some rest =>
      match rest.takeWhile tokChar with
      | [] => fnBareSearch cs
      | x :: xs => some (x :: xs)
    | none => fnBareSearch cs

/-- The lowercase literal of the content-type pattern. -/
def ctPat : List Char := ['c', 'o', 'n', 't', 'e', 'n', 't', '-', 't', 'y', 'p', 'e', ':']

/-- Case-insensitive anchored literal match (the pattern side is
lowercase). -/
def dropPrefCI : List Char → List Char → Option (List Char)
  | [], s => some s
  | _ :: _, [] => none
  | p :: ps, c :: cs => if c.toLower = p then dropPrefCI ps cs else none

/-- The regex class excluding carriage return and line feed. -/
def notCRLF (c : Char) : Bool := !(c = '\r' || c = '\n')

/-- re.search with IGNORECASE for the content-type pattern of line 143:
the literal, greedy whitespace, then a non-empty capture of non-CRLF
characters.  The greedy whitespace backtracks until the capture can
start, so when only whitespace runs to the end of input the capture is
the last whitespace character that is not a CR or LF, if any. -/
def ctSearch : List Char → Option (List Char)
  | [] => none
  | c :: cs =>
    match dropPrefCI ctPat (c :: cs) with
    | some rest =>
      match rest.dropWhile isWsC with
      | x :: xs => some ((x :: xs).takeWhile notCRLF)
      | [] =>
        match (rest.takeWhile isWsC).reverse.dropWhile (fun x => x = '\r' || x = '\n') with
        | [] => ctSearch cs
        | x :: _ => some [x]
    | none => ctSearch cs

/-- Lines 134-140: prefer the quoted filename pattern, fall back to the
bare one; the quoted capture may be the empty string. -/
def fnOf (h : List Char) : Option String :=
  match fnQuotSearch h with
  | some cap => some (String.mk cap)
  | none => (fnBareSearch h).map String.mk

/-- Lines 142-145: the declared content type of the part, stripped. -/
def ctOf (h : List Char) : Option String :=
  (ctSearch h).map (fun cap => String.mk (pstrip cap))

/-- Lines 107-128 of the manual loop: the skip tests, removal of one
leading line terminator, and the split of a segment at the first blank
line into decoded header text and the raw body block.  none means the
loop skips the segment. -/
def partPrep (part : List Nat) : Option (List Char × List Nat) :=
  if part.isEmpty || bstrip part = ([] : List Nat) || bstrip part = [45, 45]
      || bstrip part = [45, 45, 13, 10] then
    none
  else
    let part1 :=
      if [13, 10].isPrefixOf part then part.drop 2
      else if [10].isPrefixOf part then part.drop 1
      else part
    if hasSub [13, 10, 13, 10] part1 then
      match splitFirst [13, 10, 13, 10] part1 with
      | some (h, b) => some (utf8DI h, b)
      | none => none
    else if hasSub [10, 10] part1 then
      match splitFirst [10, 10] part1 with
      | some (h, b) => some (utf8DI h, b)
      | none => none
    else none

/-- Lines 147-158: strip a trailing end-boundary remnant, then one
trailing line terminator, from the body block. -/
def stripTail (b : List Nat) : List Nat :=
  let b1 :=
    if [45, 45, 13, 10].isSuffixOf b then b.take (b.length - 4)
    else if [45, 45].isSuffixOf b then b.take (b.length - 2)
    else b
  if [13, 10].isSuffixOf b1 then b1.take (b1.length - 2)
  else if [10].isSuffixOf b1 then b1.take (b1.length - 1)
  else b1

/-- One iteration of the manual loop (lines 107-162) on one segment: none
when the loop moves on, some when the loop body reaches the break,
yielding the two regex results and the stripped payload. -/
def stepPart (part : List Nat) : Option (Option String × Option String × List Nat) :=
  match partPrep part with
  | none => none
  | some (hdrs, bodyPart) =>
    if hasSub ("filename=".data) hdrs then
      some (fnOf hdrs, ctOf hdrs, stripTail bodyPart)
    else none

/-- Whether a segment survives the skip tests and its decoded header
block contains the filename token (the test of line 131). -/
def partHasFilename (part : List Nat) : Bool :=
  match partPrep part with
  | none => false
  | some (hdrs, _) => hasSub ("filename=".data) hdrs

/-- The manual loop over all segments: the first segment on which the
loop body breaks. -/
def scanParts : List (List Nat) → Option (Option String × Option String × List Nat)
  | [] => none
  | p :: ps =>
    match stepPart p with
    | some r => some r
    | none => scanParts ps

/-- Value of one base64 alphabet character. -/
def b64Val (c : Char) : Option Nat :=
  if 'A' ≤ c && c ≤ 'Z' then some (c.toNat - 65)
  else if 'a' ≤ c && c ≤ 'z' then some (c.toNat - 97 + 26)
  else if '0' ≤ c && c ≤ '9' then some (c.toNat - 48 + 52)
  else if c = '+' then some 62
  else if c = '/' then some 63
  else none

/-- Decode base64 quadruplets with optional trailing padding. -/
def b64Quads : List Char → Option (List Nat)
  | [] => some []
  | c1 :: c2 :: c3 :: c4 :: rest =>
    match b64Val c1, b64Val c2 with
    | some v1, some v2 =>
      if c3 = '=' then
        if c4 = '=' && rest.isEmpty then some [v1 * 4 + v2 / 16] else none
      else
        match b64Val c3 with
        | some v3 =>
          if c4 = '=' then
            if rest.isEmpty then some [v1 * 4 + v2 / 16, (v2 % 16) * 16 + v3 / 4] else none
          else
            match b64Val c4 with
            | some v4 =>
              match b64Quads rest with
              | some ds =>
                some ((v1 * 4 + v2 / 16) :: ((v2 % 16) * 16 + v3 / 4) :: ((v3 % 4) * 64 + v4) :: ds)
              | none => none
            | none => none
        | none => none
    | _, _ => none
  | _ => none

/-- base64.b64decode on a str (upload_handler.py line 44): requires
ASCII, discards characters outside the alphabet, then requires a whole
number of quadruplets with padding only at the very end.  none models the
raise of binascii.Error or ValueError, which the surrounding try/except
turns into the 500 response. -/
def b64decode (s : String) : Option (List Nat) :=
  if s.data.all (fun c => c.toNat ≤ 127) then
    let t := s.data.filter (fun c => (b64Val c).isSome || c = '=')
    if t.length % 4 = 0 then b64Quads t else none
  else none

/-- str.encode with latin-1 (lines 46 and 101): byte-for-byte for code
points up to 255; none models the UnicodeEncodeError raise otherwise. -/
def latin1Encode (s : String) : Option (List Nat) :=
  if s.data.all (fun c => c.toNat ≤ 255) then some (s.data.map Char.toNat) else none

/-- The fixed extension-to-MIME table of lines 179-188. -/
def content_type_map : List (String × String) :=
  [("jpg", "image/jpeg"), ("jpeg", "image/jpeg"), ("png", "image/png"),
   ("gif", "image/gif"), ("webp", "image/webp"), ("bmp", "image/bmp"),
   ("svg", "image/svg+xml"), ("pdf", "application/pdf")]

/-- Association-list lookup for the extension table (dict.get). -/
def lookupStr (k : String) : List (String × String) → Option String
  | [] => none
  | (k2, v) :: rest => if k = k2 then some v else lookupStr k rest

/-- Line 178: the last dot-separated segment of the filename, lowercased,
when the filename contains a dot, else the empty string.  The last
element of split on dots is the suffix after the last dot. -/
def extOf (fn : String) : String :=
  if fn.data.contains '.' then
    String.mk ((fn.data.reverse.takeWhile (fun c => !(c = '.'))).reverse.map Char.toLower)
  else ""

/-- Lines 177-189: the defaulted content type derived from the filename
extension via the fixed table. -/
def defaultCT (fn : String) : String :=
  (lookupStr (extOf fn) content_type_map).getD "application/octet-stream"

/-- The content type stored and echoed: the recovered declared type when
truthy, else the extension default (the test of line 177 is Python
truthiness, so None and the empty string both trigger the default). -/
def resolveCT (ct : Option String) (fn : String) : String :=
  match ct with
  | none => defaultCT fn
  | some c => if c = "" then defaultCT fn else c

/-- Line 195: the storage-key extension, defaulting to bin when the
filename has no dot. -/
def fileExtKey (fn : String) : String :=
  if fn.data.contains '.' then
    String.mk ((fn.data.reverse.takeWhile (fun c => !(c = '.'))).reverse.map Char.toLower)
  else "bin"

/-- Python falsiness of an optional bytes variable: None and the empty
bytes are falsy (the tests of lines 98 and 164). -/
def pyNotB : Option (List Nat) → Bool
  | none => true
  | some l => l.isEmpty

/-- Python falsiness of an optional str variable: None and the empty
string are falsy. -/
def pyNotS : Option String → Bool
  | none => true
  | some s => s = ""

/-- The fields of the API Gateway event that the upload handler reads. -/
structure Event where
  headerLower : Option String
  headerCap : Option String
  body : String
  isBase64Encoded : Bool

/-- Line 23: the content-type header, lowercase key first, combined with
the Python or operator (first value when non-empty, else the second). -/
def eventCT (e : Event) : String :=
  let a := e.headerLower.getD ""
  if a = "" then e.headerCap.getD "" else a

/-- Outcome of the external cgi.FieldStorage call plus the field loop of
lines 81-95.  The cgi module is Python standard library, outside this
repository, so its behaviour enters the model as a parameter: the call
raised, found no field with a truthy filename, or found one (filename,
optional declared type, payload bytes). -/
inductive CgiOutcome where
  | raised
  | notFound
  | found (filename : String) (ctype : Option String) (data : List Nat)

/-- Lines 43-46: transport decoding of the body string. -/
def decodeBody (body : String) (isB64 : Bool) : Option (List Nat) :=
  if isB64 then b64decode body else latin1Encode body

/-- Lines 164-256 after extraction: the no-file 400 test, content-type
defaulting, key derivation and the 201 response.  The S3 put, DynamoDB
put and presigned URL generation are external collaborators; image_id
and timestamp stand for uuid4 and utcnow. -/
def finishUpload (image_id timestamp : String) (presign : String → String)
    (fd : Option (List Nat)) (fn ct : Option String) : Response :=
  if pyNotB fd || pyNotS fn then
    err400 "No file uploaded. Please use form field name \"file\""
  else
    let filename := fn.getD ""
    let data := fd.getD []
    let ctype := resolveCT ct filename
    let s3Key := "images/" ++ image_id ++ "." ++ fileExtKey filename
    ⟨201, jsonHeaders, .obj
      [("message", .str "Image uploaded successfully"),
       ("imageId", .str image_id),
       ("filename", .str filename),
       ("s3Key", .str s3Key),
       ("downloadUrl", .str (presign s3Key)),
       ("uploadedAt", .str timestamp),
       ("size", .num data.length),
       ("contentType", .str ctype)]⟩

/-- Merge of a manual-loop regex result with the value the variable held
before the loop: lines 139-145 assign only when the regex matched. -/
def mergeOpt (newv old : Option String) : Option String :=
  match newv with
  | some x => some x
  | none => old

/-- Lines 98-162 plus the finish: the manual parsing fallback, entered
when the cgi result is falsy.  The delimiter is two hyphens plus the
boundary, encoded latin-1 (line 101); encoding failure raises and reaches
the 500 branch.  fd0, fn0, ct0 are the variable values left by the cgi
attempt. -/
def manualThen (image_id timestamp : String) (presign : String → String)
    (bodyBytes : List Nat) (boundary : List Char)
    (fd0 : Option (List Nat)) (fn0 ct0 : Option String) : Response :=
  match latin1Encode (String.mk boundary) with
  | none => err500 "latin-1 encoding of the boundary raised"
  | some bb =>
    match scanParts (splitOn ([45, 45] ++ bb) bodyBytes) with
    | none => finishUpload image_id timestamp presign fd0 fn0 ct0
    | some (fnM, ctM, data) =>
      finishUpload image_id timestamp presign (some data) (mergeOpt fnM fn0) (mergeOpt ctM ct0)

/-- Lines 69-256 once the boundary token is in hand: the cgi attempt, the
manual fallback when its result is falsy (line 98), and the finish. -/
def afterBoundary (cgi : CgiOutcome) (image_id timestamp : String)
    (presign : String → String) (bodyBytes : List Nat) (boundary : List Char) : Response :=
  match cgi with
  | .raised => err500 "cgi.FieldStorage raised"
  | .notFound => manualThen image_id timestamp presign bodyBytes boundary none none none
  | .found fn ct data =>
    if pyNotB (some data) || pyNotS (some fn) then
      manualThen image_id timestamp presign bodyBytes boundary (some data) (some fn) ct
    else
      finishUpload image_id timestamp presign (some data) (some fn) ct

/-- The multipart containment test of line 25. -/
def multipartCheck (ct : String) : Bool := hasSub ("multipart/form-data".data) ct.data

/-- lambda_handler of src/upload_handler.py (POST /upload).  The cgi form
parse outcome, the generated uuid, the timestamp and the presigned URL
generator are parameters standing for the external collaborators.  The
try/except of lines 21 and 258-270 is modelled by routing every raising
step to the 500 response. -/
def upload_lambda_handler (cgi : CgiOutcome) (image_id timestamp : String)
    (presign : String → String) (e : Event) : Response :=
  if !multipartCheck (eventCT e) then
    err400 "Content-Type must be multipart/form-data"
  else
    match decodeBody e.body e.isBase64Encoded with
    | none => err500 "body transport decoding raised"
    | some bodyBytes =>
      match bndSearch (eventCT e).data with
      | none => err400 "No boundary found in Content-Type"
      | some cap => afterBoundary cgi image_id timestamp presign bodyBytes (stripQuotes cap)

/-- A stored metadata record, with the fields the upload handler writes
(upload_handler.py lines 216-226). -/
structure Item where
  imageId : String
  filename : String
  contentType : String
  s3Key : String
  size : Int
  uploadedAt : String
  bucket : String

/-- Serialization of a record plus its download URL, in the order the
source builds the dictionary (the stored fields, downloadUrl appended
last). -/
def item_js (it : Item) (url : Js) : Js :=
  .obj
    [("imageId", .str it.imageId),
     ("filename", .str it.filename),
     ("contentType", .str it.contentType),
     ("s3Key", .str it.s3Key),
     ("size", .num it.size),
     ("uploadedAt", .str it.uploadedAt),
     ("bucket", .str it.bucket),
     ("downloadUrl", url)]

/-- Metadata-store operations a handler performs, recorded to state
read-only behaviour. -/
inductive DbOp where
  | getItem (key : String)
  | putItem (it : Item)

/-- lambda_handler of get_handler.py (GET one image).  The DynamoDB
lookup and the presigned URL generation are external calls that either
return a value or raise; an error value routes to the catch-all 500
branch of lines 85-97, as the try/except does.  The second component
records the store operations performed. -/
def get_lambda_handler (table : String → Except Unit (Option Item))
    (presign : String → Except Unit String) (pathId : Option String) : Response × List DbOp :=
  if pathId.getD "" = "" then
    (err400 "Missing image ID", [])
  else
    match table (pathId.getD "") with
    | .error _ => (err500 "the get_item call raised", [DbOp.getItem (pathId.getD "")])
    | .ok none =>
      (⟨404, jsonHeaders, .obj [("error", .str "Image not found")]⟩, [DbOp.getItem (pathId.getD "")])
    | .ok (some it) =>
      match presign it.s3Key with
      | .error _ =>
        (err500 "presigned URL generation raised", [DbOp.getItem (pathId.getD "")])
      | .ok url =>
        (⟨200, jsonHeaders, .obj [("image", item_js it (.str url))]⟩,
         [DbOp.getItem (pathId.getD "")])

/-- The downloadUrl each listed record receives (list_handler.py lines
44-58): the presigned URL, or null when the per-item URL generation
raises. -/
def listUrl (presign : String → Except Unit String) (key : String) : Js :=
  match presign key with
  | .ok u => .str u
  | .error _ => .null

/-- lambda_handler of list_handler.py (GET the image list).  The scanExc
argument is the outcome of the external calls of lines 30-37 (the int
conversion of the limit parameter and the table.scan call): an error
value routes to the catch-all 500 branch of lines 74-86, as the
try/except does.  When they succeed, the DynamoDB scan with Limit is
modelled at its interface as returning the first limit records of the
table, with limit the already-parsed query parameter. -/
def list_lambda_handler (table : List Item) (scanExc : Except Unit Unit)
    (presign : String → Except Unit String) (limitParam : Option Nat) : Response :=
  match scanExc with
  | .error _ => err500 "the limit parse or the scan call raised"
  | .ok _ =>
    let limit := limitParam.getD 50
    let items := table.take limit
    let withUrls := items.map (fun it => item_js it (listUrl presign it.s3Key))
    ⟨200, jsonHeaders, .obj [("count", .num withUrls.length), ("images", .arr withUrls)]⟩

/-- Association-list lookup among JSON object fields. -/
def lookupJs (k : String) : List (String × Js) → Option Js
  | [] => none
  | (k2, v) :: rest => if k = k2 then some v else lookupJs k rest

/-- Top-level field of a JSON object body. -/
def jsGet (j : Js) (k : String) : Option Js :=
  match j with
  | .obj fs => lookupJs k fs
  | _ => none

/-! Supporting lemmas about the regex models and list utilities. -/

/-- A successful anchored match means the literal heads the scanned text. -/
theorem isPrefixOf_of_dropPref {p s r : List Char} (h : dropPref p s = some r) :
    p.isPrefixOf s = true := by
  induction p generalizing s with
  | nil => simp [List.isPrefixOf]
  | cons a as ih =>
    cases s with
    | nil => simp [dropPref] at h
    | cons c cs =>
      simp only [dropPref] at h
      by_cases hca : c = a
      · simp [hca] at h
        simp [List.isPrefixOf, hca, ih h]
      · simp [hca] at h

/-- Unfolding equation of the boundary search on a non-empty list. -/
theorem bndSearch_cons (x : Char) (xs : List Char) :
    bndSearch (x :: xs) =
      match bndTry (x :: xs) with
      | some cap => some cap
      | none => bndSearch xs := rfl

/-- When the header contains no boundary= literal at all, the search
fails. -/
theorem bndSearch_none {s : List Char} (h : hasSub bndPat s = false) : bndSearch s = none := by
  induction s with
  | nil => rfl
  | cons c cs ih =>
    simp only [hasSub, Bool.or_eq_false_iff] at h
    have htry : bndTry (c :: cs) = none := by
      unfold bndTry
      cases hd : dropPref bndPat (c :: cs) with
      | none => rfl
      | some r => exact absurd (isPrefixOf_of_dropPref hd) (by simp [h.1])
    rw [bndSearch_cons, htry]
    exact ih h.2

/-- The finish step only ever answers 400 or 201. -/
theorem finishUpload_status (iid ts : String) (ps : String → String)
    (fd : Option (List Nat)) (fn ct : Option String) :
    (finishUpload iid ts ps fd fn ct).statusCode = 400 ∨
    (finishUpload iid ts ps fd fn ct).statusCode = 201 := by
  unfold finishUpload
  split
  · left; rfl
  · right; rfl

/-- When the boundary encodes, the manual fallback only ever answers 400
or 201. -/
theorem manualThen_status (iid ts : String) (ps : String → String)
    (bodyBytes : List Nat) (boundary : List Char) (fd0 : Option (List Nat)) (fn0 ct0 : Option String)
    (bb : List Nat) (henc : latin1Encode (String.mk boundary) = some bb) :
    (manualThen iid ts ps bodyBytes boundary fd0 fn0 ct0).statusCode = 400 ∨
    (manualThen iid ts ps bodyBytes boundary fd0 fn0 ct0).statusCode = 201 := by
  unfold manualThen
  simp only [henc]
  cases scanParts (splitOn ([45, 45] ++ bb) bodyBytes) with
  | none => exact finishUpload_status iid ts ps fd0 fn0 ct0
  | some r =>
    obtain ⟨fnM, ctM, data⟩ := r
    exact finishUpload_status iid ts ps (some data) (mergeOpt fnM fn0) (mergeOpt ctM ct0)

/-- When the form library does not raise and the boundary encodes, the
post-boundary stage only ever answers 400 or 201. -/
theorem afterBoundary_status (cgi : CgiOutcome) (hcgi : cgi ≠ CgiOutcome.raised)
    (iid ts : String) (ps : String → String) (bodyBytes : List Nat) (boundary : List Char)
    (bb : List Nat) (henc : latin1Encode (String.mk boundary) = some bb) :
    (afterBoundary cgi iid ts ps bodyBytes boundary).statusCode = 400 ∨
    (afterBoundary cgi iid ts ps bodyBytes boundary).statusCode = 201 := by
  cases cgi with
  | raised => exact absurd rfl hcgi
  | notFound => exact manualThen_status iid ts ps bodyBytes boundary none none none bb henc
  | found fn ct data =>
    have hred : afterBoundary (CgiOutcome.found fn ct data) iid ts ps bodyBytes boundary =
        if (pyNotB (some data) || pyNotS (some fn)) = true then
          manualThen iid ts ps bodyBytes boundary (some data) (some fn) ct
        else finishUpload iid ts ps (some data) (some fn) ct := rfl
    rw [hred]
    by_cases hps : (pyNotB (some data) || pyNotS (some fn)) = true
    · rw [if_pos hps]
      exact manualThen_status iid ts ps bodyBytes boundary (some data) (some fn) ct bb henc
    · rw [if_neg hps]
      exact finishUpload_status iid ts ps (some data) (some fn) ct

/-- The manual loop finds nothing when no surviving segment carries a
filename token: every such segment is skipped and the scan continues. -/
theorem scanParts_none (l : List (List Nat)) (h : ∀ p ∈ l, partHasFilename p = false) :
    scanParts l = none := by
  induction l with
  | nil => rfl
  | cons p ps ih =>
    have hp : partHasFilename p = false := h p (by simp)
    have hstep : stepPart p = none := by
      unfold stepPart
      unfold partHasFilename at hp
      cases hpp : partPrep p with
      | none => rfl
      | some pr =>
        obtain ⟨hdrs, bp⟩ := pr
        simp only [hpp] at hp
        simp only [hp, Bool.false_eq_true, if_false]
    unfold scanParts
    rw [hstep]
    exact ih (fun q hq => h q (by simp [hq]))

/-- A finish with truthy recovered data and filename answers 201 and
echoes the exact byte count of the recovered data. -/
theorem finish_size (iid ts : String) (ps : String → String) (fd : Option (List Nat))
    (fn : Option String) (ct : Option String)
    (hfd : pyNotB fd = false) (hfn : pyNotS fn = false) :
    (finishUpload iid ts ps fd fn ct).statusCode = 201 ∧
    jsGet (finishUpload iid ts ps fd fn ct).body "size" = some (.num (fd.getD []).length) := by
  unfold finishUpload
  simp only [hfd, hfn, Bool.or_self, Bool.false_eq_true, if_false]
  constructor <;> trivial

/-- The content type echoed by a successful finish is the resolved one. -/
theorem finish_ct (iid ts : String) (ps : String → String) (fd : Option (List Nat))
    (fn : Option String) (ct : Option String)
    (hfd : pyNotB fd = false) (hfn : pyNotS fn = false) :
    jsGet (finishUpload iid ts ps fd fn ct).body "contentType" =
      some (.str (resolveCT ct (fn.getD ""))) := by
  unfold finishUpload
  simp only [hfd, hfn, Bool.or_self, Bool.false_eq_true, if_false]
  rfl

/-- Every branch of the upload handler returns the fixed header pair. -/
theorem upload_headers (cgi : CgiOutcome) (iid ts : String) (ps : String → String) (e : Event) :
    (upload_lambda_handler cgi iid ts ps e).headers = jsonHeaders := by
  have h1 : ∀ fd fn ct, (finishUpload iid ts ps fd fn ct).headers = jsonHeaders := by
    intro fd fn ct
    unfold finishUpload
    split <;> rfl
  have h2 : ∀ bodyBytes boundary fd0 fn0 ct0,
      (manualThen iid ts ps bodyBytes boundary fd0 fn0 ct0).headers = jsonHeaders := by
    intro bodyBytes boundary fd0 fn0 ct0
    unfold manualThen
    split
    · rfl
    · split
      · apply h1
      · apply h1
  have h3 : ∀ bodyBytes boundary,
      (afterBoundary cgi iid ts ps bodyBytes boundary).headers = jsonHeaders := by
    intro bodyBytes boundary
    unfold afterBoundary
    split
    · rfl
    · apply h2
    · split
      · apply h2
      · apply h1
  unfold upload_lambda_handler
  split
  · rfl
  · split
    · rfl
    · split
      · rfl
      · apply h3

/-- Every branch of the get handler, the catch-all 500 branches
included, returns the fixed header pair. -/
theorem get_headers (table : String → Except Unit (Option Item))
    (ps : String → Except Unit String) (pid : Option String) :
    (get_lambda_handler table ps pid).1.headers = jsonHeaders := by
  unfold get_lambda_handler
  split
  · rfl
  · split
    · rfl
    · rfl
    · split <;> rfl

/-- Every branch of the list handler, the catch-all 500 branch included,
returns the fixed header pair. -/
theorem list_headers (tbl : List Item) (sc : Except Unit Unit)
    (psl : String → Except Unit String) (lp : Option Nat) :
    (list_lambda_handler tbl sc psl lp).headers = jsonHeaders := by
  unfold list_lambda_handler
  split <;> rfl

/-! Concrete request inputs used by the claim theorems and witnesses. -/

/-- A conforming CRLF-framed multipart body whose single file part
carries the four-byte payload AB followed by two hyphens (bytes 65 66 45
45) and no declared content type. -/
def bodyC1 : String :=
  "--B\r\nContent-Disposition: form-data; name=\"file\"; filename=\"a.bin\"\r\n\r\nAB--\r\n--B--\r\n"

/-- The upload event carrying bodyC1 un-encoded with boundary B.  On this
body the form library recovers filename a.bin, the full four payload
bytes, and its text/plain default for the missing part content type. -/
def evC1 : Event := ⟨some "multipart/form-data; boundary=B", none, bodyC1, false⟩

/-- A conforming multipart body whose single file part has filename
photo.png and no declared content type. -/
def bodyPng : String :=
  "--B\r\nContent-Disposition: form-data; name=\"file\"; filename=\"photo.png\"\r\n\r\nPIC\r\n--B--\r\n"

/-- The upload event carrying bodyPng.  The form library recovers the
part with its text/plain default for the missing content type. -/
def evPngLib : Event := ⟨some "multipart/form-data; boundary=B", none, bodyPng, false⟩

/-- A body with junk before the first boundary, so that no line of the
body is exactly the boundary line: the form library, which scans for the
boundary line by line, finds no part at all, while the byte-level manual
split still recovers the file part with filename file.xyz and no
declared content type. -/
def bodyPre : String :=
  "x--B\r\nContent-Disposition: form-data; name=\"f\"; filename=\"file.xyz\"\r\n\r\npayload\r\n--B--\r\n"

/-- The upload event carrying bodyPre. -/
def evPre : Event := ⟨some "multipart/form-data; boundary=B", none, bodyPre, false⟩

/-- An upload event flagged base64 whose one-character body is not
decodable (one data character is one more than a multiple of four). -/
def evBad4 : Event := ⟨some "multipart/form-data; boundary=B", none, "A", true⟩

/-- The undecodable base64 event with a boundary-less multipart header. -/
def evBad5 : Event := ⟨some "multipart/form-data", none, "A", true⟩

/-- A well-formed upload event with a decodable body. -/
def evOk4 : Event := ⟨some "multipart/form-data; boundary=B", none, "x", false⟩

/-- An upload event whose header lacks the boundary parameter and whose
body decodes. -/
def ev5 : Event := ⟨some "multipart/form-data", none, "x", false⟩

/-- A multipart body with one malformed segment (no blank-line separator)
and one well-formed non-file segment; no segment carries filename=. -/
def bodyC6 : String :=
  "--B\r\nnosep\r\n--B\r\nContent-Disposition: form-data; name=\"x\"\r\n\r\nv\r\n--B--\r\n"

/-- The upload event carrying bodyC6. -/
def evC6 : Event := ⟨some "multipart/form-data; boundary=B", none, bodyC6, false⟩

/-- A well-formed multipart body whose single file part has a valid
filename and a zero-byte payload. -/
def bodyC10 : String :=
  "--B\r\nContent-Disposition: form-data; name=\"file\"; filename=\"a.bin\"\r\n\r\n\r\n--B--\r\n"

/-- The upload event carrying bodyC10. -/
def evC10 : Event := ⟨some "multipart/form-data; boundary=B", none, bodyC10, false⟩

/-- A sample metadata record. -/
def mkItem (n : String) : Item := ⟨n, n, "image/png", "images/" ++ n, 1, "t0", "bkt"⟩

/-- A metadata table holding five records. -/
def tbl5 : List Item := [mkItem "1", mkItem "2", mkItem "3", mkItem "4", mkItem "5"]

/-! The claim theorems. -/

/-- Claim C1 counterexample: on the conforming body whose single file
part carries a zero-byte payload, with the form library reporting the
part as it does (filename a.bin, its text/plain default type, empty
bytes), the handler answers the no-file 400 instead of recovering the
0-byte payload in a 201 — so extraction is not byte-identical for every
payload content. -/
theorem c1_exact_recovery_counterexample :
    (upload_lambda_handler (.found "a.bin" (some "text/plain") []) "i" "t" (fun _ => "u")
        evC10).statusCode = 400 ∧
    ¬ (upload_lambda_handler (.found "a.bin" (some "text/plain") []) "i" "t" (fun _ => "u")
        evC10).statusCode = 201 :=
  ⟨rfl, by intro h; exact absurd (rfl.trans h.symm) (by decide)⟩

/-- Claim C1 as amended: for every file part the form library — the
primary extraction path, external standard library specified at its
interface — recovers with a truthy filename and a non-empty payload P,
the upload handler preserves P exactly: it hands exactly P with the
recovered filename to the storing finish step and returns 201 echoing
size P.length, with zero truncation or trailing-byte corruption; only a
zero-byte P is instead rejected with the no-file 400. -/
theorem c1_exact_recovery_amended (fn : String) (ct : Option String) (P : List Nat)
    (iid ts : String) (ps : String → String) (e : Event) (bs : List Nat) (cap : List Char)
    (hfn : fn ≠ "") (hP : P ≠ [])
    (hmp : multipartCheck (eventCT e) = true)
    (hdec : decodeBody e.body e.isBase64Encoded = some bs)
    (hbnd : bndSearch (eventCT e).data = some cap) :
    upload_lambda_handler (.found fn ct P) iid ts ps e =
      finishUpload iid ts ps (some P) (some fn) ct ∧
    (upload_lambda_handler (.found fn ct P) iid ts ps e).statusCode = 201 ∧
    jsGet (upload_lambda_handler (.found fn ct P) iid ts ps e).body "size" =
      some (.num P.length) := by
  have hfd : pyNotB (some P) = false := by
    cases P with
    | nil => exact absurd rfl hP
    | cons a as => rfl
  have hfns : pyNotS (some fn) = false := by simp [pyNotS, hfn]
  have heq : upload_lambda_handler (.found fn ct P) iid ts ps e =
      finishUpload iid ts ps (some P) (some fn) ct := by
    unfold upload_lambda_handler
    simp only [hmp, Bool.not_true, Bool.false_eq_true, if_false, hdec, hbnd]
    rw [show afterBoundary (CgiOutcome.found fn ct P) iid ts ps bs (stripQuotes cap) =
        if (pyNotB (some P) || pyNotS (some fn)) = true then
          manualThen iid ts ps bs (stripQuotes cap) (some P) (some fn) ct
        else finishUpload iid ts ps (some P) (some fn) ct from rfl]
    rw [hfd, hfns]
    simp only [Bool.or_self, Bool.false_eq_true, if_false]
  obtain ⟨h201, hsize⟩ := finish_size iid ts ps (some P) (some fn) ct hfd hfns
  refine ⟨heq, ?_, ?_⟩
  · rw [heq]; exact h201
  · rw [heq]; exact hsize

/-- Witness for claim C1 as amended, at the four-byte payload ending in
two hyphens that the form library recovers in full from bodyC1. -/
theorem c1_exact_recovery_amended_witness :
    ("a.bin" : String) ≠ "" ∧ ([65, 66, 45, 45] : List Nat) ≠ [] ∧
    (upload_lambda_handler (.found "a.bin" (some "text/plain") [65, 66, 45, 45]) "i" "t"
        (fun _ => "u") evC1).statusCode = 201 ∧
    jsGet (upload_lambda_handler (.found "a.bin" (some "text/plain") [65, 66, 45, 45]) "i" "t"
        (fun _ => "u") evC1).body "size" = some (.num 4) :=
  ⟨by decide, by decide,
    (c1_exact_recovery_amended "a.bin" (some "text/plain") [65, 66, 45, 45] "i" "t"
      (fun _ => "u") evC1 (bodyC1.data.map Char.toNat) ['B'] (by decide) (by decide)
      rfl rfl rfl).2⟩

/-- Claim C2 counterexample: a part lacking an explicit Content-Type
header but recovered by the form library arrives with the library's RFC
default text/plain for inner parts; the truthiness test of line 177
keeps it, so photo.png is echoed as text/plain and never reaches the
extension table. -/
theorem c2_content_type_default_counterexample :
    jsGet (upload_lambda_handler (.found "photo.png" (some "text/plain") [80, 73, 67]) "i" "t"
        (fun _ => "u") evPngLib).body "contentType" = some (.str "text/plain") ∧
    ¬ jsGet (upload_lambda_handler (.found "photo.png" (some "text/plain") [80, 73, 67]) "i" "t"
        (fun _ => "u") evPngLib).body "contentType" = some (.str "image/png") := by
  constructor
  · rfl
  · intro h
    rw [show jsGet (upload_lambda_handler (.found "photo.png" (some "text/plain") [80, 73, 67])
        "i" "t" (fun _ => "u") evPngLib).body "contentType" =
        some (Js.str "text/plain") from rfl] at h
    injection h with h2
    injection h2 with h3
    exact absurd h3 (by decide)

/-- Claim C2 as amended: the extension-table default applies to parts
recovered by the manual fallback when the form library found no file
part: a manually recovered part whose header block has no Content-Type
line is echoed with the table default of its filename — concretely
image/png for photo.png and application/octet-stream for file.xyz.  A
part the library recovers without an explicit Content-Type instead
carries the library's truthy text/plain default, which skips the
table. -/
theorem c2_content_type_default_amended (iid ts : String) (ps : String → String) (e : Event)
    (bs : List Nat) (cap : List Char) (bb : List Nat) (fn : String) (data : List Nat)
    (hmp : multipartCheck (eventCT e) = true)
    (hdec : decodeBody e.body e.isBase64Encoded = some bs)
    (hbnd : bndSearch (eventCT e).data = some cap)
    (henc : latin1Encode (String.mk (stripQuotes cap)) = some bb)
    (hscan : scanParts (splitOn ([45, 45] ++ bb) bs) = some (some fn, none, data))
    (hd : data ≠ []) (hfn : fn ≠ "") :
    jsGet (upload_lambda_handler .notFound iid ts ps e).body "contentType" =
      some (.str (defaultCT fn)) ∧
    defaultCT "photo.png" = "image/png" ∧
    defaultCT "file.xyz" = "application/octet-stream" := by
  have hfd : pyNotB (some data) = false := by
    cases data with
    | nil => exact absurd rfl hd
    | cons a as => rfl
  have hfns : pyNotS (some fn) = false := by simp [pyNotS, hfn]
  refine ⟨?_, rfl, rfl⟩
  unfold upload_lambda_handler
  simp only [hmp, Bool.not_true, Bool.false_eq_true, if_false, hdec, hbnd]
  show jsGet (manualThen iid ts ps bs (stripQuotes cap) none none none).body "contentType" = _
  unfold manualThen
  simp only [henc, hscan]
  rw [finish_ct iid ts ps (some data) (mergeOpt (some fn) none) (mergeOpt none none) hfd hfns]
  rfl

/-- Witness for claim C2 as amended, at the body with junk before the
first boundary line: the library finds no part there, the manual split
recovers file.xyz with no declared type, and the handler echoes the
table default. -/
theorem c2_content_type_default_amended_witness :
    scanParts (splitOn ([45, 45] ++ [66]) (bodyPre.data.map Char.toNat)) =
      some (some "file.xyz", none, "payload".data.map Char.toNat) ∧
    jsGet (upload_lambda_handler .notFound "i" "t" (fun _ => "u") evPre).body "contentType" =
      some (.str (defaultCT "file.xyz")) :=
  ⟨rfl, (c2_content_type_default_amended "i" "t" (fun _ => "u") evPre
    (bodyPre.data.map Char.toNat) ['B'] [66] "file.xyz" ("payload".data.map Char.toNat)
    rfl rfl rfl rfl rfl (by decide) (by decide)).1⟩

/-- Claim C4 counterexample: an undecodable base64 body makes the body
decoding step raise, and the handler answers from the catch-all 500
branch, not with a 400. -/
theorem c4_parse_failure_counterexample :
    (upload_lambda_handler .notFound "i" "t" (fun _ => "u") evBad4).statusCode = 500 ∧
    jsGet (upload_lambda_handler .notFound "i" "t" (fun _ => "u") evBad4).body "error" =
      some (.str "Internal server error") := ⟨rfl, rfl⟩

/-- Claim C4 as amended: when the transport decoding of the body succeeds,
the form library call does not raise, and the extracted boundary token is
latin-1 encodable, the upload handler answers 201 or 400 — multipart
parsing failures never reach the 500 branch. -/
theorem c4_no_500_amended (cgi : CgiOutcome) (iid ts : String) (ps : String → String) (e : Event)
    (bs : List Nat) (hdec : decodeBody e.body e.isBase64Encoded = some bs)
    (hcgi : cgi ≠ CgiOutcome.raised)
    (henc : ∀ cap, bndSearch (eventCT e).data = some cap →
      ∃ bb, latin1Encode (String.mk (stripQuotes cap)) = some bb) :
    (upload_lambda_handler cgi iid ts ps e).statusCode = 201 ∨
    (upload_lambda_handler cgi iid ts ps e).statusCode = 400 := by
  unfold upload_lambda_handler
  simp only [hdec]
  cases hmp : multipartCheck (eventCT e) with
  | false => simp [hmp, err400]
  | true =>
    simp only [hmp, Bool.not_true, Bool.false_eq_true, if_false]
    cases hbnd : bndSearch (eventCT e).data with
    | none => simp [err400]
    | some cap =>
      obtain ⟨bb, hbb⟩ := henc cap hbnd
      exact (afterBoundary_status cgi hcgi iid ts ps bs (stripQuotes cap) bb hbb).elim
        Or.inr Or.inl

/-- Witness for claim C4 as amended, at a decodable event. -/
theorem c4_no_500_amended_witness :
    decodeBody evOk4.body evOk4.isBase64Encoded = some [120] ∧
    ((upload_lambda_handler .notFound "i" "t" (fun _ => "u") evOk4).statusCode = 201 ∨
     (upload_lambda_handler .notFound "i" "t" (fun _ => "u") evOk4).statusCode = 400) := by
  refine ⟨rfl, c4_no_500_amended .notFound "i" "t" (fun _ => "u") evOk4 [120] rfl
    (by intro h; exact CgiOutcome.noConfusion h) ?_⟩
  intro cap h
  rw [show bndSearch (eventCT evOk4).data = some ['B'] from rfl] at h
  injection h with h2
  subst h2
  exact ⟨[66], rfl⟩

/-- Claim C5 counterexample: called with a multipart header that has no
boundary parameter but an undecodable base64 body, the handler answers
500 from the decoding step, not the no-boundary 400 — so the no-boundary
answer does not come for every body value. -/
theorem c5_no_boundary_counterexample :
    (upload_lambda_handler .notFound "i" "t" (fun _ => "u") evBad5).statusCode = 500 ∧
    ¬ (upload_lambda_handler .notFound "i" "t" (fun _ => "u") evBad5).statusCode = 400 :=
  ⟨rfl, by intro h; exact absurd (rfl.trans h.symm) (by decide)⟩

/-- Claim C5 as amended: whenever the content-type header contains
multipart/form-data but no boundary= parameter and the body decodes, the
handler answers the distinct no-boundary 400 response. -/
theorem c5_no_boundary_amended (cgi : CgiOutcome) (iid ts : String) (ps : String → String)
    (e : Event) (bs : List Nat)
    (hmp : multipartCheck (eventCT e) = true)
    (hnb : hasSub ("boundary=".data) (eventCT e).data = false)
    (hdec : decodeBody e.body e.isBase64Encoded = some bs) :
    upload_lambda_handler cgi iid ts ps e = err400 "No boundary found in Content-Type" := by
  have hb : bndSearch (eventCT e).data = none := bndSearch_none (by exact hnb)
  unfold upload_lambda_handler
  simp only [hmp, Bool.not_true, Bool.false_eq_true, if_false, hdec, hb]

/-- Witness for claim C5 as amended, at a boundary-less header. -/
theorem c5_no_boundary_amended_witness :
    multipartCheck (eventCT ev5) = true ∧
    hasSub ("boundary=".data) (eventCT ev5).data = false ∧
    upload_lambda_handler .notFound "i" "t" (fun _ => "u") ev5 =
      err400 "No boundary found in Content-Type" :=
  ⟨rfl, rfl, c5_no_boundary_amended .notFound "i" "t" (fun _ => "u") ev5 [120] rfl rfl rfl⟩

/-- Claim C6: when no segment of the split body carries a filename token
in its decoded header block — malformed segments without a blank-line
separator and non-file fields being skipped, not fatal — the manual scan
finds nothing and the handler answers the no-file 400 response. -/
theorem c6_no_filename_not_found (iid ts : String) (ps : String → String) (e : Event)
    (bs : List Nat) (cap : List Char) (bb : List Nat)
    (hmp : multipartCheck (eventCT e) = true)
    (hdec : decodeBody e.body e.isBase64Encoded = some bs)
    (hbnd : bndSearch (eventCT e).data = some cap)
    (henc : latin1Encode (String.mk (stripQuotes cap)) = some bb)
    (hnofn : ∀ p ∈ splitOn ([45, 45] ++ bb) bs, partHasFilename p = false) :
    upload_lambda_handler CgiOutcome.notFound iid ts ps e =
      err400 "No file uploaded. Please use form field name \"file\"" := by
  unfold upload_lambda_handler
  simp only [hmp, Bool.not_true, Bool.false_eq_true, if_false, hdec, hbnd]
  show manualThen iid ts ps bs (stripQuotes cap) none none none = _
  unfold manualThen
  simp only [henc, scanParts_none _ hnofn]
  rfl

/-- Witness for claim C6 at a body with a malformed segment and a
non-file field. -/
theorem c6_no_filename_not_found_witness :
    (∀ p ∈ splitOn ([45, 45] ++ [66]) (bodyC6.data.map Char.toNat), partHasFilename p = false) ∧
    upload_lambda_handler .notFound "i" "t" (fun _ => "u") evC6 =
      err400 "No file uploaded. Please use form field name \"file\"" :=
  ⟨by decide, c6_no_filename_not_found "i" "t" (fun _ => "u") evC6
    (bodyC6.data.map Char.toNat) ['B'] [66] rfl rfl rfl rfl (by decide)⟩

/-- Claim C7: a get request whose path identifier matches no stored
record answers 404 with exactly the error body Image not found, and the
metadata store sees a single read and no write. -/
theorem c7_get_unknown_404 (table : String → Except Unit (Option Item))
    (ps : String → Except Unit String) (iid : String)
    (hid : iid ≠ "") (hmiss : table iid = Except.ok none) :
    get_lambda_handler table ps (some iid) =
      (⟨404, jsonHeaders, .obj [("error", .str "Image not found")]⟩, [DbOp.getItem iid]) := by
  unfold get_lambda_handler
  simp only [Option.getD_some]
  rw [if_neg hid]
  simp only [hmiss]

/-- Witness for claim C7 at an unknown identifier over an empty table. -/
theorem c7_get_unknown_404_witness :
    ("img1" : String) ≠ "" ∧
    get_lambda_handler (fun _ => Except.ok none) (fun _ => Except.ok "u") (some "img1") =
      (⟨404, jsonHeaders, .obj [("error", .str "Image not found")]⟩, [DbOp.getItem "img1"]) :=
  ⟨by decide, c7_get_unknown_404 (fun _ => Except.ok none) (fun _ => Except.ok "u") "img1"
    (by decide) rfl⟩

/-- Claim C8: the list handler returns the first min(limit, table size)
records — at most limit, with limit defaulting to 50 when the query
parameter is absent — and, when URL generation succeeds, every returned
record carries a non-null downloadUrl string. -/
theorem c8_list_limit (table : List Item) (presign : String → Except Unit String)
    (lp : Option Nat) (hps : ∀ k, ∃ u, presign k = Except.ok u) :
    ∃ js : List Js,
      list_lambda_handler table (Except.ok ()) presign lp =
        ⟨200, jsonHeaders, .obj [("count", .num js.length), ("images", .arr js)]⟩ ∧
      js.length = min (lp.getD 50) table.length ∧
      ∀ j ∈ js, ∃ u, jsGet j "downloadUrl" = some (.str u) := by
  refine ⟨(table.take (lp.getD 50)).map (fun it => item_js it (listUrl presign it.s3Key)),
    rfl, ?_, ?_⟩
  · simp [List.length_take]
  · intro j hj
    rw [List.mem_map] at hj
    obtain ⟨it, hit, rfl⟩ := hj
    obtain ⟨u, hu⟩ := hps it.s3Key
    refine ⟨u, ?_⟩
    rw [show jsGet (item_js it (listUrl presign it.s3Key)) "downloadUrl" =
        some (listUrl presign it.s3Key) from rfl]
    simp [listUrl, hu]

/-- Witness for claim C8: limit 2 over the five-record table returns
exactly two records. -/
theorem c8_list_limit_witness :
    (∃ js : List Js,
      list_lambda_handler tbl5 (Except.ok ()) (fun _ => Except.ok "u") (some 2) =
        ⟨200, jsonHeaders, .obj [("count", .num js.length), ("images", .arr js)]⟩ ∧
      js.length = min ((some 2 : Option Nat).getD 50) tbl5.length ∧
      ∀ j ∈ js, ∃ u, jsGet j "downloadUrl" = some (.str u)) ∧
    min ((some 2 : Option Nat).getD 50) tbl5.length = 2 :=
  ⟨c8_list_limit tbl5 (fun _ => Except.ok "u") (some 2) (fun _ => ⟨"u", rfl⟩), rfl⟩

/-- Claim C9: every response of the three handlers — success, every
validation failure, not-found, and the catch-all 500 branches — carries
the permissive cross-origin header and the JSON content-type header. -/
theorem c9_cors_json_headers (cgi : CgiOutcome) (iid ts : String) (ps : String → String)
    (e : Event) (table : String → Except Unit (Option Item))
    (psg : String → Except Unit String) (pid : Option String)
    (tbl : List Item) (sc : Except Unit Unit) (psl : String → Except Unit String)
    (lp : Option Nat) :
    (("Access-Control-Allow-Origin", "*") ∈ (upload_lambda_handler cgi iid ts ps e).headers ∧
     ("Content-Type", "application/json") ∈ (upload_lambda_handler cgi iid ts ps e).headers) ∧
    (("Access-Control-Allow-Origin", "*") ∈ (get_lambda_handler table psg pid).1.headers ∧
     ("Content-Type", "application/json") ∈ (get_lambda_handler table psg pid).1.headers) ∧
    (("Access-Control-Allow-Origin", "*") ∈ (list_lambda_handler tbl sc psl lp).headers ∧
     ("Content-Type", "application/json") ∈ (list_lambda_handler tbl sc psl lp).headers) := by
  rw [upload_headers cgi iid ts ps e, get_headers table psg pid, list_headers tbl sc psl lp]
  refine ⟨⟨?_, ?_⟩, ⟨?_, ?_⟩, ⟨?_, ?_⟩⟩ <;> simp [jsonHeaders]

/-- Claim C10: a well-formed upload whose only file part carries a valid
filename but a zero-byte payload is treated as if no file were present —
the empty recovered bytes fail the truthiness test — and the handler
answers the no-file 400 instead of storing an empty object, whether the
form library reported the empty part or found nothing. -/
theorem c10_empty_payload_400 (iid ts : String) (ps : String → String) (e : Event)
    (bs : List Nat) (cap : List Char) (bb : List Nat) (fn : String) (ctM : Option String)
    (fnC : String) (ctC : Option String)
    (hmp : multipartCheck (eventCT e) = true)
    (hdec : decodeBody e.body e.isBase64Encoded = some bs)
    (hbnd : bndSearch (eventCT e).data = some cap)
    (henc : latin1Encode (String.mk (stripQuotes cap)) = some bb)
    (hfn : fn ≠ "")
    (hscan : scanParts (splitOn ([45, 45] ++ bb) bs) = some (some fn, ctM, [])) :
    upload_lambda_handler (.found fnC ctC []) iid ts ps e =
      err400 "No file uploaded. Please use form field name \"file\"" ∧
    upload_lambda_handler .notFound iid ts ps e =
      err400 "No file uploaded. Please use form field name \"file\"" := by
  constructor
  · unfold upload_lambda_handler
    simp only [hmp, Bool.not_true, Bool.false_eq_true, if_false, hdec, hbnd]
    rw [show afterBoundary (CgiOutcome.found fnC ctC []) iid ts ps bs (stripQuotes cap) =
        if (pyNotB (some []) || pyNotS (some fnC)) = true then
          manualThen iid ts ps bs (stripQuotes cap) (some []) (some fnC) ctC
        else finishUpload iid ts ps (some []) (some fnC) ctC from rfl]
    rw [if_pos (by simp [pyNotB])]
    unfold manualThen
    simp only [henc, hscan]
    unfold finishUpload
    rw [if_pos (by simp [pyNotB])]
  · unfold upload_lambda_handler
    simp only [hmp, Bool.not_true, Bool.false_eq_true, if_false, hdec, hbnd]
    show manualThen iid ts ps bs (stripQuotes cap) none none none = _
    unfold manualThen
    simp only [henc, hscan]
    unfold finishUpload
    rw [if_pos (by simp [pyNotB])]

/-- Witness for claim C10 at the concrete zero-byte upload. -/
theorem c10_empty_payload_400_witness :
    scanParts (splitOn ([45, 45] ++ [66]) (bodyC10.data.map Char.toNat)) =
      some (some "a.bin", none, []) ∧
    upload_lambda_handler (.found "a.bin" none []) "i" "t" (fun _ => "u") evC10 =
      err400 "No file uploaded. Please use form field name \"file\"" :=
  ⟨rfl, (c10_empty_payload_400 "i" "t" (fun _ => "u") evC10 (bodyC10.data.map Char.toNat)
    ['B'] [66] "a.bin" none "a.bin" none rfl rfl rfl rfl (by decide) rfl).1⟩

end ImageService
